import Mathlib

/-!
Verification of kloia/kubevirt-migrator (Go) against its natural-language
specification, via a shallow embedding of the relevant source functions.

Conventions used throughout:
* Go `error` results are modelled as `Except String α`; a `nil` error is `.ok`.
* External collaborators (cluster CLI processes, the mount provider, the file
  system) are modelled by explicit outcome records or by a positional oracle
  (`List (Except String String)`) consumed one entry per external call, so a
  theorem quantifying over the oracle covers every pattern of collaborator
  success and failure.
* Go `map[string]int` is modelled as an association list with Go's assignment
  semantics (overwrite if the key is present, append otherwise).
* Go float64 arithmetic in the resource calculator is modelled as exact
  rational arithmetic on explicit numerator/denominator integer pairs; at
  every call site of the source the float results coincide with the exact
  rational values (the operands are small integers scaled by powers of two
  and the constants 0.3, 0.7, 0.25 never push a value across a rounding
  boundary for the magnitudes the program produces).
-/

set_option autoImplicit false

namespace KubevirtMigrator

/-! ## String helpers

`strContains` models Go's `strings.Contains` (case-sensitive substring test),
used by `CheckManager.CheckConnectivity` to attribute composite connectivity
failures (internal/connectivity/check_manager.go lines 225-233). -/

/-- `leadsWith pat cs` is true iff `pat` is an initial segment of `cs`. -/
def leadsWith : List Char → List Char → Bool
  | [], _ => true
  | _ :: _, [] => false
  | a :: as, b :: bs => a == b && leadsWith as bs

/-- `containsSeg sub cs` is true iff `sub` occurs contiguously inside `cs`. -/
def containsSeg (sub : List Char) : List Char → Bool
  | [] => leadsWith sub []
  | c :: rest => leadsWith sub (c :: rest) || containsSeg sub rest

/-- Go `strings.Contains s sub`. -/
def strContains (s sub : String) : Bool :=
  containsSeg sub.data s.data

namespace connectivity

/-! ## Feasibility Check Engine (internal/connectivity/check_manager.go) -/

/-- Check result constants (check_manager.go lines 31-35). -/
def CheckFailed : Int := 0
def CheckSuccess : Int := 1
def CheckNotTested : Int := -1

/-- The check-result map `map[string]int`, as an association list. -/
abbrev CheckResults := List (String × Int)

/-- Go map assignment `m[k] = v`: overwrite the entry if present, else append. -/
def setCheck : CheckResults → String → Int → CheckResults
  | [], k, v => [(k, v)]
  | (k', v') :: rest, k, v =>
    if k' = k then (k, v) :: rest else (k', v') :: setCheck rest k v

/-- `addCheckResult` (check_manager.go lines 64-70). -/
def addCheckResult (m : CheckResults) (checkName : String) (success : Bool) : CheckResults :=
  setCheck m checkName (if success then CheckSuccess else CheckFailed)

/-- The twelve declared probe names (check_manager.go lines 74-87). -/
def expectedChecks : List String :=
  ["Source Pod", "Destination Pod", "SSH Service", "SSH Auth", "NodePort",
   "Host IP", "TCP Connection", "Write Permissions", "SSHFS Available",
   "Mount", "Mount Verification", "Unmount"]

/-- Insert `CheckNotTested` for every name of `l` absent from `m`
(the loop body of `markRemainingNotTested`). -/
def fillMissing (m : CheckResults) (l : List String) : CheckResults :=
  l.foldl (fun acc k => if (acc.lookup k).isSome then acc else setCheck acc k CheckNotTested) m

/-- `markRemainingNotTested` (check_manager.go lines 73-94). -/
def markRemainingNotTested (m : CheckResults) : CheckResults :=
  fillMissing m expectedChecks

/-- Outcomes of every external collaborator call `CheckConnectivity` can make,
in program order.  Quantifying over this record covers every configuration and
every pattern of collaborator success or failure: the configuration only feeds
the command strings inside the collaborators, never the control flow of
`CheckConnectivity` itself. -/
structure Collab where
  /-- `srcClient.GetVMStatus` -/
  srcVMStatus : Except String String
  /-- `dstClient.GetVMStatus` -/
  dstVMStatus : Except String String
  /-- `srcClient.ExportVM` (consulted only when `dstVMStatus` errs) -/
  exportVM : Except String String
  /-- `dstClient.ImportVM` -/
  importVM : Except String Unit
  /-- `dstClient.StopVM` (consulted only when the observed status is not "Stopped") -/
  stopVM : Except String Unit
  /-- `dstClient.WaitForVMStatus _ _ "Stopped" 60s` -/
  waitStopped : Except String Unit
  /-- `setupTestReplicators` (templates + two pod waits, one failure domain) -/
  setupReplicators : Except String Unit
  /-- `sshMgr.GenerateKeys` -/
  generateKeys : Except String Unit
  /-- `sshMgr.SetupDestinationAuth` -/
  setupDestAuth : Except String Unit
  /-- `dstClient.GetNodePort` -/
  nodePort : Except String Int
  /-- `dstClient.GetPodHostIP` -/
  podHostIP : Except String String
  /-- `mountProvider.CheckConnectivity` (composite probe; the error text drives
  the marker matching) -/
  mountCheck : Except String Unit
  /-- `mountProvider.Mount` -/
  mountOp : Except String Unit
  /-- `mountProvider.VerifyMount` -/
  verifyMount : Except String Unit
  /-- `mountProvider.Unmount` attempted after a verification failure; its
  result is only logged (check_manager.go lines 258-262) -/
  unmountAfterVerifyFailure : Except String Unit
  /-- final `mountProvider.Unmount` -/
  unmount : Except String Unit

/-- The phase of `CheckConnectivity` before any check result is recorded:
source VM lookup, destination VM export/import, halt, and the wait for
`Stopped` (check_manager.go lines 101-159).  Returns the wrapped error of the
first failing step. -/
def ensureHaltedPhase (c : Collab) : Except String Unit :=
  match c.srcVMStatus with
  | .error e => .error ("VM not found: " ++ e)
  | .ok _ =>
    -- On error Go leaves destVMStatus at its zero value "".
    let destStatus := match c.dstVMStatus with | .ok s => s | .error _ => ""
    let created : Except String Unit :=
      match c.dstVMStatus with
      | .ok _ => .ok ()
      | .error _ =>
        match c.exportVM with
        | .error e => .error ("failed to export VM from source cluster: " ++ e)
        | .ok _ =>
          match c.importVM with
          | .error e => .error ("failed to import VM to destination cluster: " ++ e)
          | .ok _ => .ok ()
    match created with
    | .error e => .error e
    | .ok _ =>
      let stopped : Except String Unit :=
        if destStatus = "Stopped" then .ok ()
        else
          match c.stopVM with
          | .error e => .error ("failed to stop VM in destination cluster: " ++ e)
          | .ok _ => .ok ()
      match stopped with
      | .error e => .error e
      | .ok _ =>
        match c.waitStopped with
        | .error e => .error ("VM failed to reach Stopped state in destination cluster: " ++ e)
        | .ok _ => .ok ()

/-- Replay a sequence of `addCheckResult` invocations onto a map. -/
def applyCalls (m : CheckResults) (cs : List (String × Bool)) : CheckResults :=
  cs.foldl (fun acc p => addCheckResult acc p.1 p.2) m

/-- The value `addCheckResult` stores for a boolean outcome. -/
def boolResult (b : Bool) : Int :=
  if b then CheckSuccess else CheckFailed

/-- Result of one `CheckConnectivity` run: the final check-result map, the
ordered list of `addCheckResult` invocations made during the run, and the
function's return value. -/
structure CheckRun where
  results : CheckResults
  calls : List (String × Bool)
  ret : Except String Unit

/-- Build the `CheckRun` of a short-circuited (fatal) exit: the recorded calls
are applied in order and the remaining probes are force-marked NotTested. -/
def fatalRun (cs : List (String × Bool)) (e : String) : CheckRun :=
  { results := markRemainingNotTested (applyCalls [] cs), calls := cs, ret := .error e }

/-- `CheckConnectivity` (check_manager.go lines 97-280), as a function of the
collaborator outcomes.  The deferred `cleanupTestReplicators` only logs and
does not touch the result map or the return value, so it is not modelled. -/
def CheckConnectivity (c : Collab) : CheckRun :=
  match ensureHaltedPhase c with
  | .error e => fatalRun [] e
  | .ok _ =>
    match c.setupReplicators with
    | .error e =>
      fatalRun [("Source Pod", false), ("Destination Pod", false), ("SSH Service", false)]
        ("failed to setup test replicators: " ++ e)
    | .ok _ =>
      let pods : List (String × Bool) :=
        [("Source Pod", true), ("Destination Pod", true), ("SSH Service", true)]
      match c.generateKeys with
      | .error e => fatalRun (pods ++ [("SSH Auth", false)]) ("failed to generate SSH keys: " ++ e)
      | .ok _ =>
        match c.setupDestAuth with
        | .error e => fatalRun (pods ++ [("SSH Auth", false)]) ("failed to setup destination auth: " ++ e)
        | .ok _ =>
          match c.nodePort with
          | .error e =>
            fatalRun (pods ++ [("SSH Auth", true), ("NodePort", false)])
              ("failed to get destination NodePort: " ++ e)
          | .ok _ =>
            match c.podHostIP with
            | .error e =>
              fatalRun (pods ++ [("SSH Auth", true), ("NodePort", true), ("Host IP", false)])
                ("failed to get destination pod host IP: " ++ e)
            | .ok _ =>
              let base : List (String × Bool) :=
                pods ++ [("SSH Auth", true), ("NodePort", true), ("Host IP", true)]
              match c.mountCheck with
              | .error e =>
                -- Extract specific check failures based on the error message
                -- (check_manager.go lines 225-233).
                let tcpConnected := !(strContains e "TCP connectivity test failed")
                let srcDirWritable := !(strContains e "Source directory write permission")
                let sshfsAvailable := !(strContains e "SSHFS command not available")
                fatalRun
                  (base ++ [("TCP Connection", tcpConnected),
                            ("Write Permissions", srcDirWritable),
                            ("SSHFS Available", sshfsAvailable)])
                  ("connectivity check failed: " ++ e)
              | .ok _ =>
                let conn : List (String × Bool) :=
                  base ++ [("TCP Connection", true), ("Write Permissions", true),
                           ("SSHFS Available", true)]
                match c.mountOp with
                | .error e => fatalRun (conn ++ [("Mount", false)]) ("mount test failed: " ++ e)
                | .ok _ =>
                  match c.verifyMount with
                  | .error e =>
                    -- the unmount attempted here is only logged
                    fatalRun (conn ++ [("Mount", true), ("Mount Verification", false)])
                      ("mount verification failed: " ++ e)
                  | .ok _ =>
                    let unmountOk := match c.unmount with | .ok _ => true | .error _ => false
                    let allCalls :=
                      conn ++ [("Mount", true), ("Mount Verification", true),
                               ("Unmount", unmountOk)]
                    -- Unmount failure is only logged; the run still succeeds.
                    { results := applyCalls [] allCalls, calls := allCalls, ret := .ok () }

/-- The error message the SSHFS provider returns from its write-permission
branch (internal/replication/sshfs_provider.go line 76), wrapping the inner
executor error. -/
def writePermErrMsg (inner : String) : String :=
  "source directory write permission check failed - cannot write to /data/simg: " ++ inner

/-- A concrete collaborator pattern in which every step succeeds (used as a
base for concrete scenario inputs). -/
def collabBase : Collab :=
  { srcVMStatus := .ok "Running", dstVMStatus := .ok "Stopped", exportVM := .ok "",
    importVM := .ok (), stopVM := .ok (), waitStopped := .ok (),
    setupReplicators := .ok (), generateKeys := .ok (), setupDestAuth := .ok (),
    nodePort := .ok 30022, podHostIP := .ok "10.0.0.5", mountCheck := .ok (),
    mountOp := .ok (), verifyMount := .ok (), unmountAfterVerifyFailure := .ok (),
    unmount := .ok () }

/-- A concrete collaborator pattern in which the very first step fails. -/
def collabAllError : Collab :=
  { srcVMStatus := .error "connection refused", dstVMStatus := .error "connection refused",
    exportVM := .error "connection refused", importVM := .error "connection refused",
    stopVM := .error "connection refused", waitStopped := .error "connection refused",
    setupReplicators := .error "connection refused", generateKeys := .error "connection refused",
    setupDestAuth := .error "connection refused", nodePort := .error "connection refused",
    podHostIP := .error "connection refused", mountCheck := .error "connection refused",
    mountOp := .error "connection refused", verifyMount := .error "connection refused",
    unmountAfterVerifyFailure := .error "connection refused",
    unmount := .error "connection refused" }

/-- The error text the SSHFS provider returns when only the tool-presence
sub-probe fails (sshfs_provider.go line 105). -/
def sshfsMissingMsg : String :=
  "SSHFS command not available in the replicator pod - please install sshfs package"

end connectivity

namespace resource

/-! ## Resource Sizing Calculator (internal/resource/calculator.go)

The Go code computes over float64.  Every quantity it manipulates is an exact
binary rational of small magnitude, and the rounding of `math.Ceil` and of
`%.1f` / `%.0f` formatting agrees with exact rational arithmetic at every
value the program can produce, so the embedding computes over
numerator/denominator pairs of integers (denominator always positive). -/

/-- `Resources` (calculator.go lines 18-23). -/
structure Resources where
  CPULimit : String
  CPURequest : String
  MemoryLimit : String
  MemoryRequest : String
deriving DecidableEq, Repr

/-- Ceiling of the fraction `n / d` for a positive denominator `d`
(models `math.Ceil` on the exact value). -/
def ceilFrac (n d : Int) : Int :=
  -(Int.fdiv (-n) d)

/-- `usedGB` as an exact fraction: `usedBytes / 2^30`, floored at 1
(calculator.go lines 81-86).  Returns (numerator, denominator). -/
def usedGBFrac (usedBytes : Int) : Int × Int :=
  if usedBytes < 1073741824 then (1, 1) else (usedBytes, 1073741824)

/-- `cpuCores`: one core per 5GB of used data, clamped to [1,4]
(calculator.go lines 88-94). -/
def cpuCoresOf (usedBytes : Int) : Int :=
  let g := usedGBFrac usedBytes
  let c := ceilFrac g.1 (5 * g.2)
  if c < 1 then 1 else if c > 4 then 4 else c

/-- `memoryGB`: 0.3x the used data size, clamped to [2,8]
(calculator.go lines 96-103). -/
def memoryGBOf (usedBytes : Int) : Int :=
  let g := usedGBFrac usedBytes
  let m := ceilFrac (3 * g.1) (10 * g.2)
  if m < 2 then 2 else if m > 8 then 8 else m

/-- `fmt.Sprintf("%.1f", x)` for a non-negative exact multiple of one tenth,
given as `tenths/10`. -/
def fmtTenths (tenths : Int) : String :=
  let n := tenths.toNat
  toString (n / 10) ++ "." ++ toString (n % 10)

/-- `CalculateResourcesFromUsage` (calculator.go lines 79-121): request is set
at 70% of limit. -/
def CalculateResourcesFromUsage (usedBytes : Int) : Resources :=
  let cpuCores := cpuCoresOf usedBytes
  let memoryGB := memoryGBOf usedBytes
  { CPULimit := fmtTenths (10 * cpuCores)
    CPURequest := fmtTenths (7 * cpuCores)
    MemoryLimit := toString memoryGB ++ "Gi"
    MemoryRequest := toString (ceilFrac (7 * memoryGB) 10) ++ "Gi" }

/-- ASCII whitespace test (models `strings.TrimSpace` for the ASCII inputs
the program handles). -/
def isSpaceChar (c : Char) : Bool :=
  c == ' ' || c == '\t' || c == '\n' || c == '\r'

/-- Trim leading and trailing whitespace from a character list. -/
def trimChars (cs : List Char) : List Char :=
  ((cs.dropWhile isSpaceChar).reverse.dropWhile isSpaceChar).reverse

def isDigitChar (c : Char) : Bool :=
  '0' ≤ c && c ≤ '9'

/-- Decimal digits to a natural number. -/
def digitsToNat (cs : List Char) : Nat :=
  cs.foldl (fun a c => a * 10 + (c.toNat - '0'.toNat)) 0

/-- Go int64 wrap-around (two's complement). -/
def wrap64 (n : Int) : Int :=
  (n + 2 ^ 63) % 2 ^ 64 - 2 ^ 63

/-- Lower-case an ASCII letter (`strings.ToLower` on the unit suffix). -/
def lowerChar (c : Char) : Char :=
  if 'A' ≤ c && c ≤ 'Z' then Char.ofNat (c.toNat + 32) else c

/-- `ParseSize` (calculator.go lines 33-76): split a k8s size string into a
leading decimal number and a unit suffix, and convert to bytes.  The numeric
part is parsed as Go `strconv.ParseInt(_, 10, 64)` (error when empty or out
of int64 range); the unit multiplications wrap like Go int64 arithmetic. -/
def ParseSize (size : String) : Except String Int :=
  let cs := trimChars size.data
  if cs.isEmpty then .error "empty size string" else
  let numChars := cs.takeWhile isDigitChar
  let unitChars := cs.dropWhile isDigitChar
  if numChars.isEmpty then .error ("invalid size format: " ++ String.mk cs) else
  let v : Nat := digitsToNat numChars
  if v > 9223372036854775807 then .error ("invalid size format: " ++ String.mk cs) else
  let num : Int := v
  let unit := unitChars.map lowerChar
  if unit = "k".data || unit = "ki".data then .ok (wrap64 (num * 1024))
  else if unit = "m".data || unit = "mi".data then .ok (wrap64 (num * 1024 * 1024))
  else if unit = "g".data || unit = "gi".data then .ok (wrap64 (num * 1024 * 1024 * 1024))
  else if unit = "t".data || unit = "ti".data then .ok (wrap64 (num * 1024 * 1024 * 1024 * 1024))
  else if unit = [] then .ok num
  else .error ("unknown unit in size: " ++ String.mk unit)

/-- `int64(float64(sizeBytes) * 0.25)`: multiplication by 0.25 is exact in
binary64 for the magnitudes involved and the conversion truncates toward
zero, i.e. Go computes the t-division of `sizeBytes` by 4
(calculator.go line 132). -/
def estimatedUsageOf (sizeBytes : Int) : Int :=
  Int.tdiv sizeBytes 4

/-- `FallbackToPVCSize` (calculator.go lines 124-145). -/
def FallbackToPVCSize (pvcSize : String) : Except String Resources :=
  match ParseSize pvcSize with
  | .error e => .error e
  | .ok sizeBytes => .ok (CalculateResourcesFromUsage (estimatedUsageOf sizeBytes))

/-- `GetDefaultResources` (calculator.go lines 148-155). -/
def GetDefaultResources : Resources :=
  { CPULimit := "1", CPURequest := "1", MemoryLimit := "2Gi", MemoryRequest := "2Gi" }

end resource

/-! ## Oracle model of external effects

Every external effect (a CLI process run through the Command Runner, an OS
file write/remove) consumes one entry of a positional oracle; quantifying
over the oracle covers every pattern of collaborator success and failure.
`time.Sleep` cannot fail and consumes nothing. -/

/-- One observable external action. -/
inductive Event where
  | cmd (name : String) (args : List String)
  | sleep (seconds : Nat)
  | fileWrite (path : String)
  | fileRemove (path : String)
deriving DecidableEq, Repr

/-- Outcome of one external call: Go `(stdout string, err error)`. -/
abbrev Resp := Except String String

/-- Oracle still to be consumed plus the trace of events so far. -/
structure RunState where
  oracle : List Resp
  trace : List Event
deriving Repr

/-- Run one Command Runner call: record the event and consume one oracle
entry (an exhausted oracle acts as a failing call). -/
def execCmd (st : RunState) (name : String) (args : List String) : Resp × RunState :=
  match st.oracle with
  | [] => (.error "no response", { oracle := [], trace := st.trace ++ [.cmd name args] })
  | r :: rest => (r, { oracle := rest, trace := st.trace ++ [.cmd name args] })

/-- Run one OS file write: record the event and consume one oracle entry. -/
def fsWrite (st : RunState) (path : String) : Resp × RunState :=
  match st.oracle with
  | [] => (.error "no response", { oracle := [], trace := st.trace ++ [.fileWrite path] })
  | r :: rest => (r, { oracle := rest, trace := st.trace ++ [.fileWrite path] })

/-- Run one OS file remove: record the event and consume one oracle entry. -/
def fsRemove (st : RunState) (path : String) : Resp × RunState :=
  match st.oracle with
  | [] => (.error "no response", { oracle := [], trace := st.trace ++ [.fileRemove path] })
  | r :: rest => (r, { oracle := rest, trace := st.trace ++ [.fileRemove path] })

/-- The configuration fields the embedded functions read. -/
structure Config where
  VMName : String
  Namespace : String
  SrcKubeconfig : String
  DstKubeconfig : String
  KubeCLI : String

namespace replication

/-! ## SSH Provisioner (internal/replication/ssh.go) -/

def srcPodName (cfg : Config) : String := cfg.VMName ++ "-src-replicator"

def secretName (cfg : Config) : String := cfg.VMName ++ "-repl-ssh-keys"

/-- The secret verification retry loop (ssh.go lines 149-175): fuel counts
the remaining attempts (`maxRetries = 3`), `retryDelay` starts at 5 seconds
and doubles after each sleep; no sleep follows the last attempt.  Returns the
final state, the number of verification attempts made, and the sleep
durations (in seconds) in order.  Whether verification succeeds or the
retries are exhausted, Go returns nil. -/
def verifySecretLoop (cfg : Config) : Nat → Nat → RunState → RunState × Nat × List Nat
  | 0, _, st => (st, 0, [])
  | n + 1, retryDelay, st =>
    let p := execCmd st cfg.KubeCLI
      ["get", "secret", secretName cfg, "-n", cfg.Namespace, "--kubeconfig", cfg.SrcKubeconfig]
    match p.1 with
    | .ok _ => (p.2, 1, [])
    | .error _ =>
      if n = 0 then (p.2, 1, [])
      else
        let st' : RunState := { p.2 with trace := p.2.trace ++ [Event.sleep retryDelay] }
        let r := verifySecretLoop cfg n (retryDelay * 2) st'
        (r.1, r.2.1 + 1, retryDelay :: r.2.2)

/-- Result of one `GenerateKeys` run, with the verification loop
instrumented. -/
structure GenRun where
  ret : Except String Unit
  state : RunState
  verifyAttempts : Nat
  verifySleeps : List Nat

/-- The phase of `GenerateKeys` before the secret-verification loop
(ssh.go lines 31-147): key existence check, generation, key read-back, temp
files, and the idempotent secret recreation ending with `kubectl apply`.
`.ok` means the apply step succeeded. -/
def generateKeysPre (cfg : Config) (st0 : RunState) : Except String Unit × RunState :=
  let pod := srcPodName cfg
  let execArgs := fun (script : String) =>
    ["exec", pod, "-n", cfg.Namespace, "--kubeconfig", cfg.SrcKubeconfig, "--", "bash", "-c", script]
  -- check whether a keypair already exists; a failing check is treated as NOT_EXISTS
  let p1 := execCmd st0 cfg.KubeCLI (execArgs
    "if [[ -f ~/.ssh/id_rsa && -f ~/.ssh/id_rsa.pub ]]; then echo 'EXISTS'; else echo 'NOT_EXISTS'; fi")
  let output := match p1.1 with | .ok o => o | .error _ => "NOT_EXISTS"
  let keysExist := String.mk (resource.trimChars output.data) = "EXISTS"
  let gen : Except String Unit × RunState :=
    if keysExist then (.ok (), p1.2)
    else
      -- force-remove partial keys (failure only logged), then generate
      let p2 := execCmd p1.2 cfg.KubeCLI (execArgs "rm -f ~/.ssh/id_rsa ~/.ssh/id_rsa.pub")
      let p3 := execCmd p2.2 cfg.KubeCLI (execArgs
        "mkdir -p ~/.ssh && ssh-keygen -t rsa -b 4096 -N '' -f ~/.ssh/id_rsa")
      match p3.1 with
      | .error e => (.error ("failed to generate SSH keys: " ++ e), p3.2)
      | .ok _ => (.ok (), p3.2)
  match gen with
  | (.error e, st) => (.error e, st)
  | (.ok _, st1) =>
    let p4 := execCmd st1 cfg.KubeCLI
      ["exec", pod, "-n", cfg.Namespace, "--kubeconfig", cfg.SrcKubeconfig, "--", "cat", "/root/.ssh/id_rsa"]
    match p4.1 with
    | .error e =>
      (.error ("failed to get private key: " ++ e), p4.2)
    | .ok privateKey =>
      let p5 := execCmd p4.2 cfg.KubeCLI
        ["exec", pod, "-n", cfg.Namespace, "--kubeconfig", cfg.SrcKubeconfig, "--", "cat", "/root/.ssh/id_rsa.pub"]
      match p5.1 with
      | .error e =>
        (.error ("failed to get public key: " ++ e), p5.2)
      | .ok publicKey =>
        let privateKeyFile := "/tmp/" ++ cfg.VMName ++ "-id_rsa"
        let publicKeyFile := "/tmp/" ++ cfg.VMName ++ "-id_rsa.pub"
        -- writeKeyFile runs `bash -c "echo '<content>' > <file>"` (ssh.go lines 208-215)
        let p6 := execCmd p5.2 "bash" ["-c", "echo '" ++ privateKey ++ "' > " ++ privateKeyFile]
        match p6.1 with
        | .error e =>
          (.error ("failed to write key file " ++ privateKeyFile ++ ": " ++ e), p6.2)
        | .ok _ =>
          let p7 := execCmd p6.2 "bash" ["-c", "echo '" ++ publicKey ++ "' > " ++ publicKeyFile]
          match p7.1 with
          | .error e =>
            (.error ("failed to write key file " ++ publicKeyFile ++ ": " ++ e), p7.2)
          | .ok _ =>
            -- idempotent recreation: check existence, delete if present (delete failure only logged)
            let p8 := execCmd p7.2 cfg.KubeCLI
              ["get", "secret", secretName cfg, "-n", cfg.Namespace, "--kubeconfig", cfg.SrcKubeconfig]
            let st8 :=
              match p8.1 with
              | .ok _ =>
                (execCmd p8.2 cfg.KubeCLI
                  ["delete", "secret", secretName cfg, "-n", cfg.Namespace, "--kubeconfig", cfg.SrcKubeconfig]).2
              | .error _ => p8.2
            let p9 := execCmd st8 cfg.KubeCLI
              ["create", "secret", "generic", secretName cfg,
               "--from-file=id_rsa=" ++ privateKeyFile,
               "--from-file=id_rsa.pub=" ++ publicKeyFile,
               "-n", cfg.Namespace, "--save-config", "--dry-run=client", "-o", "yaml"]
            match p9.1 with
            | .error e =>
              (.error ("failed to generate secret YAML: " ++ e), p9.2)
            | .ok _ =>
              let tempSecretFile := "/tmp/" ++ cfg.VMName ++ "-ssh-secret.yaml"
              let p10 := fsWrite p9.2 tempSecretFile
              match p10.1 with
              | .error e =>
                (.error ("failed to write secret YAML to file: " ++ e), p10.2)
              | .ok _ =>
                let p11 := execCmd p10.2 cfg.KubeCLI
                  ["apply", "-f", tempSecretFile, "-n", cfg.Namespace, "--kubeconfig", cfg.SrcKubeconfig]
                -- temp file removal happens before the apply error is inspected;
                -- a removal failure is only logged
                let p12 := fsRemove p11.2 tempSecretFile
                match p11.1 with
                | .error e =>
                  (.error ("failed to create/apply secret: " ++ e), p12.2)
                | .ok _ => (.ok (), p12.2)

/-- `GenerateKeys` (ssh.go lines 31-183): run the pre-verification phase;
when the apply step succeeded, verify the secret with bounded, doubling
retries — exhaustion is only logged and `GenerateKeys` still returns nil. -/
def GenerateKeys (cfg : Config) (st0 : RunState) : GenRun :=
  match generateKeysPre cfg st0 with
  | (.error e, st) => { ret := .error e, state := st, verifyAttempts := 0, verifySleeps := [] }
  | (.ok _, st) =>
    let v := verifySecretLoop cfg 3 5 st
    { ret := .ok (), state := v.1, verifyAttempts := v.2.1, verifySleeps := v.2.2 }

end replication

namespace migrate

/-! ## Migrate phase (cmd/kubevirt-migrator/migrate.go)

`runMigrate` is modelled as a function from a positional oracle to the
function's return value and the ordered trace of external commands it issued.
The repository also carries an older snapshot of the migrate command
(src/unnamed/part_000) in which the source VM is stopped through the cluster
client's `StopVM` (with runStrategy detection) and the stop precedes the
cronjob suspension; the current `cmd/kubevirt-migrator/migrate.go` is the one
embedded here. -/

/-- Consume one oracle entry (an exhausted oracle acts as a failing call). -/
def popResp : List Resp → Resp × List Resp
  | [] => (.error "no response", [])
  | r :: rest => (r, rest)

/-- `syncMgr.SuspendCronJob` command (internal/replication/sync.go lines 375-387). -/
def suspendCronJobEvent (cfg : Config) : Event :=
  .cmd cfg.KubeCLI
    ["patch", "cronjob", cfg.VMName ++ "-repl-cronjob", "-n", cfg.Namespace,
     "--kubeconfig", cfg.SrcKubeconfig, "-p", "\x7b\"spec\" : \x7b\"suspend\" : true \x7d\x7d"]

/-- `stopSourceVM` command (migrate.go lines 133-140): a plain `virtctl stop`. -/
def stopSourceVMEvent (cfg : Config) : Event :=
  .cmd "virtctl" ["stop", cfg.VMName, "--kubeconfig", cfg.SrcKubeconfig]

/-- `startDestVM` command (migrate.go lines 167-174). -/
def startDestVMEvent (cfg : Config) : Event :=
  .cmd "virtctl" ["start", cfg.VMName, "--kubeconfig", cfg.DstKubeconfig]

/-- The VM status query of the wait loops (migrate.go lines 146-147, 180-181). -/
def getVMStatusEvent (cfg : Config) (kubeconfig : String) : Event :=
  .cmd "oc"
    ["get", "vm", cfg.VMName, "-n", cfg.Namespace, "--kubeconfig", kubeconfig,
     "--no-headers", "-o", "custom-columns=STATUS:.status.printableStatus"]

/-- The inter-poll `sleep 5`, itself run through the executor (migrate.go line 158). -/
def sleepEvent : Event := .cmd "sleep" ["5"]

/-- `waitForSourceVMStop` / `waitForDestVMStart` (migrate.go lines 142-165,
176-199): poll the VM status every 5 seconds until it equals `target`, with
no deadline; only a failing status query or a failing sleep ends the loop
early.  Returns the result, the unconsumed oracle, and the events issued. -/
def waitVMStatusLoop (getEv : Event) (target errGet : String) :
    List Resp → Except String Unit × List Resp × List Event
  | [] => (.error (errGet ++ "no response"), [], [getEv])
  | [r] =>
    match r with
    | .error e => (.error (errGet ++ e), [], [getEv])
    | .ok status =>
      if status = target then (.ok (), [], [getEv])
      else (.error "failed during sleep: no response", [], [getEv, sleepEvent])
  | r :: r2 :: rest2 =>
    match r with
    | .error e => (.error (errGet ++ e), r2 :: rest2, [getEv])
    | .ok status =>
      if status = target then (.ok (), r2 :: rest2, [getEv])
      else
        match r2 with
        | .error e => (.error ("failed during sleep: " ++ e), rest2, [getEv, sleepEvent])
        | .ok _ =>
          let w := waitVMStatusLoop getEv target errGet rest2
          (w.1, w.2.1, [getEv, sleepEvent] ++ w.2.2)

/-- The migrate-phase steps after the source VM stop has been issued
(migrate.go lines 104-130): wait for the source VM to stop, run the final
sync job, start the destination VM, wait for it to run, then best-effort
cleanup.  Returns the result and the events of this suffix only. -/
def runMigrateAfterStop (cfg : Config) (o2 : List Resp) : Except String Unit × List Event :=
      -- Wait for source VM to stop
      let w1 := waitVMStatusLoop (getVMStatusEvent cfg cfg.SrcKubeconfig) "Stopped"
        "failed to get source VM status: " o2
      let tr3 := w1.2.2
      match w1.1 with
      | .error e => (.error e, tr3)
      | .ok _ =>
        -- PerformFinalSync (internal/replication/sync.go lines 351-372)
        let p3 := popResp w1.2.1
        let tr4 := tr3 ++ [.cmd cfg.KubeCLI
          ["create", "job", "--from=cronjob/" ++ cfg.VMName ++ "-repl-cronjob",
           cfg.VMName ++ "-repl-final-job", "-n", cfg.Namespace, "--kubeconfig", cfg.SrcKubeconfig]]
        match p3.1 with
        | .error e => (.error ("failed to create final job: " ++ e), tr4)
        | .ok _ =>
          let p4 := popResp p3.2
          let tr5 := tr4 ++ [.cmd cfg.KubeCLI
            ["wait", "job", cfg.VMName ++ "-repl-final-job", "-n", cfg.Namespace,
             "--kubeconfig", cfg.SrcKubeconfig, "--for=condition=complete", "--timeout=-1m"]]
          match p4.1 with
          | .error e => (.error ("failed waiting for final job: " ++ e), tr5)
          | .ok _ =>
            -- Start destination VM
            let p5 := popResp p4.2
            let tr6 := tr5 ++ [startDestVMEvent cfg]
            match p5.1 with
            | .error e => (.error ("failed to start destination VM: " ++ e), tr6)
            | .ok _ =>
              -- Wait for destination VM to start
              let w2 := waitVMStatusLoop (getVMStatusEvent cfg cfg.DstKubeconfig) "Running"
                "failed to get destination VM status: " p5.2
              let tr7 := tr6 ++ w2.2.2
              match w2.1 with
              | .error e => (.error e, tr7)
              | .ok _ =>
                -- cleanup (migrate.go lines 201-248): six deletes, failures only logged
                let d1 := popResp w2.2.1
                let d2 := popResp d1.2
                let d3 := popResp d2.2
                let d4 := popResp d3.2
                let d5 := popResp d4.2
                let d6 := popResp d5.2
                let _ := d6
                let tr8 := tr7 ++
                  [.cmd "oc" ["delete", "job", cfg.VMName ++ "-repl-final-job", "-n", cfg.Namespace,
                     "--kubeconfig", cfg.SrcKubeconfig, "--wait"],
                   .cmd "oc" ["delete", "cronjob", cfg.VMName ++ "-repl-cronjob", "-n", cfg.Namespace,
                     "--kubeconfig", cfg.SrcKubeconfig, "--wait"],
                   .cmd "oc" ["delete", "pod", cfg.VMName ++ "-src-replicator", "-n", cfg.Namespace,
                     "--kubeconfig", cfg.SrcKubeconfig, "--wait"],
                   .cmd "oc" ["delete", "secret", cfg.VMName ++ "-repl-ssh-keys", "-n", cfg.Namespace,
                     "--kubeconfig", cfg.SrcKubeconfig, "--wait"],
                   .cmd "oc" ["delete", "pod", cfg.VMName ++ "-dst-replicator", "-n", cfg.Namespace,
                     "--kubeconfig", cfg.DstKubeconfig, "--wait"],
                   .cmd "oc" ["delete", "svc", cfg.VMName ++ "-dst-svc", "-n", cfg.Namespace,
                     "--kubeconfig", cfg.DstKubeconfig, "--wait"]]
                (.ok (), tr8)

/-- `runMigrate` (cmd/kubevirt-migrator/migrate.go lines 71-131): suspend the
replication cronjob first, then stop the source VM with `virtctl stop`, then
run the post-stop steps. -/
def runMigrate (cfg : Config) (oracle : List Resp) : Except String Unit × List Event :=
  -- Suspend cronjob first
  let p1 := popResp oracle
  match p1.1 with
  | .error e => (.error ("failed to suspend cronjob: " ++ e), [suspendCronJobEvent cfg])
  | .ok _ =>
    -- Stop source VM
    let p2 := popResp p1.2
    match p2.1 with
    | .error e =>
      (.error ("failed to stop source VM: " ++ e),
       [suspendCronJobEvent cfg, stopSourceVMEvent cfg])
    | .ok _ =>
      let rest := runMigrateAfterStop cfg p2.2
      (rest.1, suspendCronJobEvent cfg :: stopSourceVMEvent cfg :: rest.2)

/-- An event queries the VM's `runStrategy` field iff one of its arguments
mentions it; `runMigrate` never issues such a query (the old snapshot's
`StopVM` did, through the cluster client). -/
def mentionsRunStrategy : Event → Bool
  | .cmd _ args => args.any (fun a => strContains a "runStrategy")
  | _ => false

/-- A concrete migrate configuration for scenario runs. -/
def cfgExample : Config :=
  ⟨"vm1", "default", "src.kubeconfig", "dst.kubeconfig", "oc"⟩

/-- An oracle under which every command succeeds but the source VM reports
"Running" 62 times before "Stopped": 63 status polls, more than the 60 a
5-minute deadline at the fixed 5-second interval could ever allow. -/
def migrateOracle62 : List Resp :=
  [.ok "", .ok ""] ++ (List.replicate 62 [Except.ok "Running", Except.ok ""]).flatten ++
  [.ok "Stopped", .ok "", .ok "", .ok "", .ok "Running"] ++ List.replicate 6 (.ok "")

end migrate

/-! ## Theorems -/

namespace connectivity

theorem lookup_setCheck_self (m : CheckResults) (k : String) (v : Int) :
    (setCheck m k v).lookup k = some v := by
  induction m with
  | nil => simp [setCheck]
  | cons hd tl ih =>
    rcases hd with ⟨k', v'⟩
    by_cases h : k' = k
    · simp [setCheck, h]
    · have hb : (k == k') = false := beq_eq_false_iff_ne.mpr (Ne.symm h)
      simp [setCheck, h, List.lookup, hb, ih]

theorem lookup_setCheck_ne (m : CheckResults) (k k' : String) (v : Int) (h : k' ≠ k) :
    (setCheck m k v).lookup k' = m.lookup k' := by
  have hb : (k' == k) = false := beq_eq_false_iff_ne.mpr h
  induction m with
  | nil => simp [setCheck, List.lookup, hb]
  | cons hd tl ih =>
    rcases hd with ⟨k₀, v₀⟩
    by_cases h0 : k₀ = k
    · subst h0
      simp [setCheck, List.lookup, hb]
    · simp only [setCheck, h0, if_false, List.lookup]
      cases hb0 : (k' == k₀) with
      | true => rfl
      | false => simpa [hb0] using ih

theorem fillMissing_cons (m : CheckResults) (k' : String) (l' : List String) :
    fillMissing m (k' :: l') =
      fillMissing (if (m.lookup k').isSome then m else setCheck m k' CheckNotTested) l' :=
  rfl

theorem lookup_fillMissing_of_some (l : List String) (m : CheckResults) (k : String) (v : Int)
    (h : m.lookup k = some v) : (fillMissing m l).lookup k = some v := by
  induction l generalizing m with
  | nil => simpa [fillMissing] using h
  | cons k' l' ih =>
    rw [fillMissing_cons]
    by_cases hs : (m.lookup k').isSome = true
    · rw [if_pos hs]
      exact ih m h
    · rw [if_neg hs]
      by_cases hk : k' = k
      · subst hk
        simp [h] at hs
      · exact ih _ (by rw [lookup_setCheck_ne m k' k CheckNotTested (Ne.symm hk)] ; exact h)

theorem isSome_lookup_fillMissing (l : List String) (m : CheckResults) (k : String)
    (h : k ∈ l) : ((fillMissing m l).lookup k).isSome := by
  induction l generalizing m with
  | nil => cases h
  | cons k' l' ih =>
    rw [fillMissing_cons]
    rcases List.mem_cons.mp h with rfl | hmem
    · -- the head is our key: after the step it is present, and stays present
      by_cases hs : (m.lookup k).isSome = true
      · rw [if_pos hs]
        rcases Option.isSome_iff_exists.mp hs with ⟨v, hv⟩
        rw [lookup_fillMissing_of_some l' m k v hv]
        rfl
      · rw [if_neg hs]
        rw [lookup_fillMissing_of_some l' _ k CheckNotTested (lookup_setCheck_self m k _)]
        rfl
    · by_cases hs : (m.lookup k').isSome = true
      · rw [if_pos hs]
        exact ih m hmem
      · rw [if_neg hs]
        exact ih _ hmem

theorem lookup_fillMissing_absent (l : List String) (m : CheckResults) (k : String)
    (h : m.lookup k = none) (hk : k ∈ l) :
    (fillMissing m l).lookup k = some CheckNotTested := by
  induction l generalizing m with
  | nil => cases hk
  | cons k' l' ih =>
    rw [fillMissing_cons]
    by_cases hk' : k' = k
    · have h1 : ¬ (m.lookup k').isSome = true := by simp [hk', h]
      rw [if_neg h1]
      have h2 : (setCheck m k' CheckNotTested).lookup k = some CheckNotTested := by
        rw [hk']
        exact lookup_setCheck_self m k _
      exact lookup_fillMissing_of_some l' _ k CheckNotTested h2
    · rcases List.mem_cons.mp hk with heq | hmem
      · exact absurd heq.symm hk'
      · by_cases hs : (m.lookup k').isSome = true
        · rw [if_pos hs]
          exact ih m h hmem
        · rw [if_neg hs]
          exact ih _ (by rw [lookup_setCheck_ne m k' k CheckNotTested (Ne.symm hk')] ; exact h) hmem

theorem applyCalls_cons (m : CheckResults) (p : String × Bool) (cs : List (String × Bool)) :
    applyCalls m (p :: cs) = applyCalls (addCheckResult m p.1 p.2) cs :=
  rfl

theorem lookup_applyCalls_of_not_mem (cs : List (String × Bool)) (m : CheckResults) (k : String)
    (h : k ∉ cs.map Prod.fst) : (applyCalls m cs).lookup k = m.lookup k := by
  induction cs generalizing m with
  | nil => rfl
  | cons q cs' ih =>
    rw [applyCalls_cons]
    have hk : k ≠ q.1 := fun he => h (by simp [he])
    rw [ih _ (fun hm => h (by simp [hm]))]
    exact lookup_setCheck_ne m q.1 k _ hk

theorem lookup_applyCalls_self (cs : List (String × Bool)) : ∀ (m : CheckResults)
    (p : String × Bool), (cs.map Prod.fst).Nodup → p ∈ cs →
    (applyCalls m cs).lookup p.1 = some (boolResult p.2) := by
  induction cs with
  | nil =>
    intro m p _ hp
    cases hp
  | cons q cs' ih =>
    intro m p hnd hp
    rw [List.map_cons] at hnd
    rw [applyCalls_cons]
    rcases List.mem_cons.mp hp with rfl | hmem
    · have hq : p.1 ∉ cs'.map Prod.fst := (List.nodup_cons.mp hnd).1
      rw [lookup_applyCalls_of_not_mem cs' _ p.1 hq]
      exact lookup_setCheck_self m p.1 _
    · exact ih _ p (List.nodup_cons.mp hnd).2 hmem

theorem mem_setCheck {m : CheckResults} {k : String} {v : Int} {e : String × Int}
    (h : e ∈ setCheck m k v) : e ∈ m ∨ e = (k, v) := by
  induction m with
  | nil => simpa [setCheck] using h
  | cons hd tl ih =>
    rcases hd with ⟨k', v'⟩
    by_cases hk : k' = k
    · simp only [setCheck, hk, if_pos] at h
      rcases List.mem_cons.mp h with he | he
      · exact .inr he
      · exact .inl (List.mem_cons_of_mem _ he)
    · simp only [setCheck, hk, if_false] at h
      rcases List.mem_cons.mp h with he | he
      · exact .inl (by simp [he])
      · rcases ih he with h1 | h1
        · exact .inl (List.mem_cons_of_mem _ h1)
        · exact .inr h1

theorem mem_applyCalls {cs : List (String × Bool)} {m : CheckResults} {e : String × Int}
    (h : e ∈ applyCalls m cs) : e ∈ m ∨ e.2 = CheckSuccess ∨ e.2 = CheckFailed := by
  induction cs generalizing m with
  | nil => exact .inl h
  | cons q cs' ih =>
    rw [applyCalls_cons] at h
    rcases ih h with h1 | h1
    · rcases mem_setCheck h1 with h2 | h2
      · exact .inl h2
      · subst h2
        cases hq : q.2 <;> simp [addCheckResult, hq]
    · exact .inr h1

theorem mem_fillMissing {l : List String} {m : CheckResults} {e : String × Int}
    (h : e ∈ fillMissing m l) : e ∈ m ∨ e.2 = CheckNotTested := by
  induction l generalizing m with
  | nil => exact .inl h
  | cons k' l' ih =>
    rw [fillMissing_cons] at h
    by_cases hs : (m.lookup k').isSome = true
    · rw [if_pos hs] at h
      exact ih h
    · rw [if_neg hs] at h
      rcases ih h with h1 | h1
      · rcases mem_setCheck h1 with h2 | h2
        · exact .inl h2
        · subst h2
          exact .inr rfl
      · exact .inr h1

theorem mem_of_lookup_eq {m : CheckResults} {k : String} {v : Int}
    (h : m.lookup k = some v) : (k, v) ∈ m := by
  induction m with
  | nil => simp [List.lookup] at h
  | cons hd tl ih =>
    rcases hd with ⟨k', v'⟩
    rcases hb : (k == k') with _ | _
    · simp only [List.lookup, hb] at h
      exact List.mem_cons_of_mem _ (ih h)
    · simp only [List.lookup, hb] at h
      have hk : k = k' := eq_of_beq hb
      cases h
      simp [hk]

/-- Every run of `CheckConnectivity` takes one of two shapes: a fatal exit,
whose result map is the recorded calls plus `markRemainingNotTested`, or the
success path, whose recorded calls hit all twelve declared probe names; in
both shapes the recorded call names are pairwise distinct. -/
theorem CheckConnectivity_shape (c : Collab) :
    ∃ cs : List (String × Bool),
      (CheckConnectivity c).calls = cs ∧
      (cs.map Prod.fst).Nodup ∧
      ((CheckConnectivity c).results = fillMissing (applyCalls [] cs) expectedChecks ∨
       ((CheckConnectivity c).results = applyCalls [] cs ∧
        cs.map Prod.fst = expectedChecks)) := by
  cases h0 : ensureHaltedPhase c with
  | error e =>
    simp only [CheckConnectivity, h0, fatalRun]
    exact ⟨[], rfl, by simp, .inl rfl⟩
  | ok u0 =>
    cases h1 : c.setupReplicators with
    | error e =>
      simp only [CheckConnectivity, h0, h1, fatalRun]
      exact ⟨_, rfl, by decide, .inl rfl⟩
    | ok u1 =>
      cases h2 : c.generateKeys with
      | error e =>
        simp only [CheckConnectivity, h0, h1, h2, fatalRun]
        exact ⟨_, rfl, by decide, .inl rfl⟩
      | ok u2 =>
        cases h3 : c.setupDestAuth with
        | error e =>
          simp only [CheckConnectivity, h0, h1, h2, h3, fatalRun]
          exact ⟨_, rfl, by decide, .inl rfl⟩
        | ok u3 =>
          cases h4 : c.nodePort with
          | error e =>
            simp only [CheckConnectivity, h0, h1, h2, h3, h4, fatalRun]
            exact ⟨_, rfl, by decide, .inl rfl⟩
          | ok u4 =>
            cases h5 : c.podHostIP with
            | error e =>
              simp only [CheckConnectivity, h0, h1, h2, h3, h4, h5, fatalRun]
              exact ⟨_, rfl, by decide, .inl rfl⟩
            | ok u5 =>
              cases h6 : c.mountCheck with
              | error e =>
                simp only [CheckConnectivity, h0, h1, h2, h3, h4, h5, h6, fatalRun]
                exact ⟨_, rfl,
                  (by decide : (["Source Pod", "Destination Pod", "SSH Service",
                    "SSH Auth", "NodePort", "Host IP", "TCP Connection",
                    "Write Permissions", "SSHFS Available"] : List String).Nodup),
                  .inl rfl⟩
              | ok u6 =>
                cases h7 : c.mountOp with
                | error e =>
                  simp only [CheckConnectivity, h0, h1, h2, h3, h4, h5, h6, h7, fatalRun]
                  exact ⟨_, rfl, by decide, .inl rfl⟩
                | ok u7 =>
                  cases h8 : c.verifyMount with
                  | error e =>
                    simp only [CheckConnectivity, h0, h1, h2, h3, h4, h5, h6, h7, h8, fatalRun]
                    exact ⟨_, rfl, by decide, .inl rfl⟩
                  | ok u8 =>
                    simp only [CheckConnectivity, h0, h1, h2, h3, h4, h5, h6, h7, h8, fatalRun]
                    exact ⟨_, rfl, (by decide : expectedChecks.Nodup), .inr ⟨rfl, rfl⟩⟩

/-- C1: after every run of the Feasibility Check Engine's CheckConnectivity,
for every pattern of collaborator success or failure, the returned
check-result map contains an entry for each of the twelve declared probe
names, each mapped to Success, Failed, or NotTested, regardless of where the
probe sequence stopped. -/
theorem checkConnectivity_covers_all_probes (c : Collab) (name : String)
    (hname : name ∈ expectedChecks) :
    ∃ v, (CheckConnectivity c).results.lookup name = some v ∧
      (v = CheckSuccess ∨ v = CheckFailed ∨ v = CheckNotTested) := by
  obtain ⟨cs, hcalls, hnd, hshape⟩ := CheckConnectivity_shape c
  rcases hshape with hres | ⟨hres, hmap⟩
  · rw [hres]
    have hs := isSome_lookup_fillMissing expectedChecks (applyCalls [] cs) name hname
    rcases Option.isSome_iff_exists.mp hs with ⟨v, hv⟩
    refine ⟨v, hv, ?_⟩
    rcases mem_fillMissing (mem_of_lookup_eq hv) with h1 | h1
    · rcases mem_applyCalls h1 with h2 | h2
      · cases h2
      · rcases h2 with h2 | h2
        · exact .inl h2
        · exact .inr (.inl h2)
    · exact .inr (.inr h1)
  · rw [hres]
    have hname' : name ∈ cs.map Prod.fst := by rw [hmap] ; exact hname
    rcases List.mem_map.mp hname' with ⟨p, hp, hp1⟩
    refine ⟨boolResult p.2, ?_, ?_⟩
    · rw [← hp1]
      exact lookup_applyCalls_self cs [] p hnd hp
    · cases hb : p.2 <;> simp [boolResult, hb]

/-- C1 witness: at a concrete collaborator pattern where the first probe
fails, the probe name "Mount" is still present in the result map. -/
theorem checkConnectivity_covers_all_probes_witness :
    ∃ v, (CheckConnectivity collabAllError).results.lookup "Mount" = some v ∧
      (v = CheckSuccess ∨ v = CheckFailed ∨ v = CheckNotTested) :=
  checkConnectivity_covers_all_probes collabAllError "Mount" (by decide)

/-- C9: markRemainingNotTested only inserts entries for probe names absent
from the check-result map (an entry already recorded is preserved unchanged,
and an absent declared probe is recorded NotTested), so each probe's
tri-state, once set by addCheckResult during a CheckConnectivity run, is the
value found in the final map. -/
theorem markRemainingNotTested_only_inserts_absent :
    (∀ (m : CheckResults) (k : String) (v : Int), m.lookup k = some v →
      (markRemainingNotTested m).lookup k = some v) ∧
    (∀ (m : CheckResults) (k : String), m.lookup k = none → k ∈ expectedChecks →
      (markRemainingNotTested m).lookup k = some CheckNotTested) ∧
    (∀ (c : Collab) (p : String × Bool), p ∈ (CheckConnectivity c).calls →
      (CheckConnectivity c).results.lookup p.1 = some (boolResult p.2)) := by
  refine ⟨?_, ?_, ?_⟩
  · intro m k v h
    exact lookup_fillMissing_of_some expectedChecks m k v h
  · intro m k h hk
    exact lookup_fillMissing_absent expectedChecks m k h hk
  · intro c p hp
    obtain ⟨cs, hcalls, hnd, hshape⟩ := CheckConnectivity_shape c
    rw [hcalls] at hp
    rcases hshape with hres | ⟨hres, _⟩
    · rw [hres]
      exact lookup_fillMissing_of_some expectedChecks _ p.1 _
        (lookup_applyCalls_self cs [] p hnd hp)
    · rw [hres]
      exact lookup_applyCalls_self cs [] p hnd hp

/-- C9 witness: at a concrete run in which the final Unmount probe fails, the
recorded Unmount call is found unchanged (Failed, not NotTested) in the final
map. -/
theorem markRemainingNotTested_only_inserts_absent_witness :
    (CheckConnectivity { collabBase with unmount := .error "umount failed" }).results.lookup
      "Unmount" = some (boolResult false) :=
  markRemainingNotTested_only_inserts_absent.2.2
    { collabBase with unmount := .error "umount failed" } ("Unmount", false) (by decide)

/-- C8: a feasibility check run in which every probe up to and including
Mount Verification succeeds and only the final Unmount fails still returns
overall success (no error), with Unmount recorded Failed and every other
probe recorded Success. -/
theorem checkConnectivity_unmount_failure_nonfatal (c : Collab) (s0 ip e : String) (np : Int)
    (h0 : c.srcVMStatus = .ok s0)
    (hd : c.dstVMStatus = .ok "Stopped")
    (hw : c.waitStopped = .ok ())
    (h1 : c.setupReplicators = .ok ())
    (h2 : c.generateKeys = .ok ())
    (h3 : c.setupDestAuth = .ok ())
    (h4 : c.nodePort = .ok np)
    (h5 : c.podHostIP = .ok ip)
    (h6 : c.mountCheck = .ok ())
    (h7 : c.mountOp = .ok ())
    (h8 : c.verifyMount = .ok ())
    (h9 : c.unmount = .error e) :
    (CheckConnectivity c).ret = .ok () ∧
    (CheckConnectivity c).results.lookup "Unmount" = some CheckFailed ∧
    ∀ n ∈ ["Source Pod", "Destination Pod", "SSH Service", "SSH Auth", "NodePort",
           "Host IP", "TCP Connection", "Write Permissions", "SSHFS Available",
           "Mount", "Mount Verification"],
      (CheckConnectivity c).results.lookup n = some CheckSuccess := by
  have he : ensureHaltedPhase c = .ok () := by
    simp [ensureHaltedPhase, h0, hd, hw]
  simp only [CheckConnectivity, he, h1, h2, h3, h4, h5, h6, h7, h8, h9]
  exact ⟨by trivial, by decide, by decide⟩

/-- C8 witness: the concrete run where only the final Unmount fails. -/
theorem checkConnectivity_unmount_failure_nonfatal_witness :
    (CheckConnectivity { collabBase with unmount := .error "umount failed" }).ret = .ok () ∧
    (CheckConnectivity { collabBase with unmount := .error "umount failed" }).results.lookup
      "Unmount" = some CheckFailed ∧
    ∀ n ∈ ["Source Pod", "Destination Pod", "SSH Service", "SSH Auth", "NodePort",
           "Host IP", "TCP Connection", "Write Permissions", "SSHFS Available",
           "Mount", "Mount Verification"],
      (CheckConnectivity { collabBase with unmount := .error "umount failed" }).results.lookup
        n = some CheckSuccess :=
  checkConnectivity_unmount_failure_nonfatal _ "Running" "10.0.0.5" "umount failed" 30022
    rfl rfl rfl rfl rfl rfl rfl rfl rfl rfl rfl rfl

/-- C3: if the composite connectivity probe fails with an error whose text
matches only the tool-not-found marker (it contains "SSHFS command not
available" but neither "TCP connectivity test failed" nor "Source directory
write permission"), the run records TCP Connection = Success, Write
Permissions = Success, SSHFS Available = Failed, and Mount, Mount
Verification, and Unmount = NotTested. -/
theorem checkConnectivity_sshfs_marker_attribution (c : Collab) (s0 ip e : String) (np : Int)
    (h0 : c.srcVMStatus = .ok s0)
    (hd : c.dstVMStatus = .ok "Stopped")
    (hw : c.waitStopped = .ok ())
    (h1 : c.setupReplicators = .ok ())
    (h2 : c.generateKeys = .ok ())
    (h3 : c.setupDestAuth = .ok ())
    (h4 : c.nodePort = .ok np)
    (h5 : c.podHostIP = .ok ip)
    (hm : c.mountCheck = .error e)
    (hmk1 : strContains e "SSHFS command not available" = true)
    (hmk2 : strContains e "TCP connectivity test failed" = false)
    (hmk3 : strContains e "Source directory write permission" = false) :
    (CheckConnectivity c).results.lookup "TCP Connection" = some CheckSuccess ∧
    (CheckConnectivity c).results.lookup "Write Permissions" = some CheckSuccess ∧
    (CheckConnectivity c).results.lookup "SSHFS Available" = some CheckFailed ∧
    (CheckConnectivity c).results.lookup "Mount" = some CheckNotTested ∧
    (CheckConnectivity c).results.lookup "Mount Verification" = some CheckNotTested ∧
    (CheckConnectivity c).results.lookup "Unmount" = some CheckNotTested := by
  have he : ensureHaltedPhase c = .ok () := by
    simp [ensureHaltedPhase, h0, hd, hw]
  simp only [CheckConnectivity, he, h1, h2, h3, h4, h5, hm, hmk1, hmk2, hmk3, fatalRun]
  decide

/-- C3 witness: the concrete tool-not-found error text the SSHFS provider
actually produces. -/
theorem checkConnectivity_sshfs_marker_attribution_witness :
    (CheckConnectivity { collabBase with mountCheck := .error sshfsMissingMsg }).results.lookup
      "TCP Connection" = some CheckSuccess ∧
    (CheckConnectivity { collabBase with mountCheck := .error sshfsMissingMsg }).results.lookup
      "Write Permissions" = some CheckSuccess ∧
    (CheckConnectivity { collabBase with mountCheck := .error sshfsMissingMsg }).results.lookup
      "SSHFS Available" = some CheckFailed ∧
    (CheckConnectivity { collabBase with mountCheck := .error sshfsMissingMsg }).results.lookup
      "Mount" = some CheckNotTested ∧
    (CheckConnectivity { collabBase with mountCheck := .error sshfsMissingMsg }).results.lookup
      "Mount Verification" = some CheckNotTested ∧
    (CheckConnectivity { collabBase with mountCheck := .error sshfsMissingMsg }).results.lookup
      "Unmount" = some CheckNotTested :=
  checkConnectivity_sshfs_marker_attribution _ "Running" "10.0.0.5" sshfsMissingMsg 30022
    rfl rfl rfl rfl rfl rfl rfl rfl rfl (by decide) (by decide) (by decide)

/-- C10: the failure markers are matched case-sensitively, and the marker
"Source directory write permission" does not occur in the error text the
SSHFS provider actually returns from its write-permission branch (which
starts lower-case); consequently such a composite failure is recorded with
Write Permissions = Success (and TCP Connection and SSHFS Available =
Success as well), the remaining probes NotTested, and the run still fails
overall with the wrapped connectivity error. -/
theorem checkConnectivity_write_perm_marker_mismatch (c : Collab) (s0 ip : String) (np : Int)
    (h0 : c.srcVMStatus = .ok s0)
    (hd : c.dstVMStatus = .ok "Stopped")
    (hw : c.waitStopped = .ok ())
    (h1 : c.setupReplicators = .ok ())
    (h2 : c.generateKeys = .ok ())
    (h3 : c.setupDestAuth = .ok ())
    (h4 : c.nodePort = .ok np)
    (h5 : c.podHostIP = .ok ip)
    (hm : c.mountCheck = .error (writePermErrMsg "command terminated with exit code 1")) :
    strContains (writePermErrMsg "command terminated with exit code 1")
      "Source directory write permission" = false ∧
    strContains (writePermErrMsg "command terminated with exit code 1")
      "source directory write permission" = true ∧
    (CheckConnectivity c).results.lookup "TCP Connection" = some CheckSuccess ∧
    (CheckConnectivity c).results.lookup "Write Permissions" = some CheckSuccess ∧
    (CheckConnectivity c).results.lookup "SSHFS Available" = some CheckSuccess ∧
    (CheckConnectivity c).results.lookup "Mount" = some CheckNotTested ∧
    (CheckConnectivity c).results.lookup "Mount Verification" = some CheckNotTested ∧
    (CheckConnectivity c).results.lookup "Unmount" = some CheckNotTested ∧
    (CheckConnectivity c).ret =
      .error ("connectivity check failed: " ++ writePermErrMsg "command terminated with exit code 1") := by
  have he : ensureHaltedPhase c = .ok () := by
    simp [ensureHaltedPhase, h0, hd, hw]
  simp only [CheckConnectivity, he, h1, h2, h3, h4, h5, hm, fatalRun]
  refine ⟨by decide, by decide, by decide, by decide, by decide, by decide, by decide,
    by decide, by trivial⟩

/-- C10 witness: the concrete run with the provider's lower-case
write-permission error. -/
theorem checkConnectivity_write_perm_marker_mismatch_witness :
    strContains (writePermErrMsg "command terminated with exit code 1")
      "Source directory write permission" = false ∧
    strContains (writePermErrMsg "command terminated with exit code 1")
      "source directory write permission" = true ∧
    (CheckConnectivity { collabBase with
      mountCheck := .error (writePermErrMsg "command terminated with exit code 1") }).results.lookup
      "TCP Connection" = some CheckSuccess ∧
    (CheckConnectivity { collabBase with
      mountCheck := .error (writePermErrMsg "command terminated with exit code 1") }).results.lookup
      "Write Permissions" = some CheckSuccess ∧
    (CheckConnectivity { collabBase with
      mountCheck := .error (writePermErrMsg "command terminated with exit code 1") }).results.lookup
      "SSHFS Available" = some CheckSuccess ∧
    (CheckConnectivity { collabBase with
      mountCheck := .error (writePermErrMsg "command terminated with exit code 1") }).results.lookup
      "Mount" = some CheckNotTested ∧
    (CheckConnectivity { collabBase with
      mountCheck := .error (writePermErrMsg "command terminated with exit code 1") }).results.lookup
      "Mount Verification" = some CheckNotTested ∧
    (CheckConnectivity { collabBase with
      mountCheck := .error (writePermErrMsg "command terminated with exit code 1") }).results.lookup
      "Unmount" = some CheckNotTested ∧
    (CheckConnectivity { collabBase with
      mountCheck := .error (writePermErrMsg "command terminated with exit code 1") }).ret =
      .error ("connectivity check failed: " ++ writePermErrMsg "command terminated with exit code 1") :=
  checkConnectivity_write_perm_marker_mismatch _ "Running" "10.0.0.5" 30022
    rfl rfl rfl rfl rfl rfl rfl rfl rfl

end connectivity

namespace resource

/-- C4: CalculateResourcesFromUsage applied to usedBytes = 3*2^30 returns
exactly CPULimit "1.0", CPURequest "0.7", MemoryLimit "2Gi", and
MemoryRequest "2Gi". -/
theorem calculateResources_three_gib :
    CalculateResourcesFromUsage (3 * 2 ^ 30) =
      { CPULimit := "1.0", CPURequest := "0.7", MemoryLimit := "2Gi",
        MemoryRequest := "2Gi" } := by
  decide

/-- C5: resource sizing is monotonic and clamped: 0.1 GB of usage (floored to
1 GB) yields the same profile as 1 GB; 100 GB hits both caps (cpuLimit "4.0",
memoryLimit "8Gi"); and for every non-negative input the derived CPU cores
lie in [1,4] and the derived memory GB in [2,8]. -/
theorem calculateResources_monotone_clamped :
    (CalculateResourcesFromUsage 107374182 = CalculateResourcesFromUsage (2 ^ 30)) ∧
    ((CalculateResourcesFromUsage (100 * 2 ^ 30)).CPULimit = "4.0" ∧
     (CalculateResourcesFromUsage (100 * 2 ^ 30)).MemoryLimit = "8Gi") ∧
    (∀ usedBytes : Int, 0 ≤ usedBytes →
      (1 ≤ cpuCoresOf usedBytes ∧ cpuCoresOf usedBytes ≤ 4) ∧
      (2 ≤ memoryGBOf usedBytes ∧ memoryGBOf usedBytes ≤ 8)) := by
  refine ⟨by decide, ⟨by decide, by decide⟩, ?_⟩
  intro b _
  refine ⟨⟨?_, ?_⟩, ?_, ?_⟩ <;>
    · simp only [cpuCoresOf, memoryGBOf]
      split_ifs <;> omega

/-- C5 witness: the clamp bounds at the concrete input 5 bytes. -/
theorem calculateResources_monotone_clamped_witness :
    (1 ≤ cpuCoresOf 5 ∧ cpuCoresOf 5 ≤ 4) ∧ (2 ≤ memoryGBOf 5 ∧ memoryGBOf 5 ≤ 8) :=
  calculateResources_monotone_clamped.2.2 5 (by decide)

/-- C6 counterexample: GetDefaultResources does NOT set its request at 70% of
its limit: its CPU limit is 1 core, the one-decimal 70% of 1 core is "0.7",
but its CPURequest is "1" (equal to the limit). -/
theorem getDefaultResources_request_equals_limit :
    GetDefaultResources.CPURequest = "1" ∧ GetDefaultResources.CPULimit = "1" ∧
    fmtTenths (7 * 1) = "0.7" ∧ GetDefaultResources.CPURequest ≠ "0.7" := by
  decide

/-- C6 (amended): profiles from CalculateResourcesFromUsage and from
FallbackToPVCSize always have request = 70% of the corresponding limit,
rounded per the field rules (CPU to one decimal, memory request rounded up
to whole Gi); GetDefaultResources does not follow the CPU rule — its
CPURequest equals its CPULimit "1" rather than the one-decimal "0.7" — while
its MemoryRequest "2Gi" does coincide with ceil(0.7 * 2) Gi. -/
theorem resources_request_seventy_percent :
    (∀ usedBytes : Int, ∃ c m : Int,
      CalculateResourcesFromUsage usedBytes =
        { CPULimit := fmtTenths (10 * c), CPURequest := fmtTenths (7 * c),
          MemoryLimit := toString m ++ "Gi",
          MemoryRequest := toString (ceilFrac (7 * m) 10) ++ "Gi" }) ∧
    (∀ (pvcSize : String) (r : Resources), FallbackToPVCSize pvcSize = .ok r →
      ∃ c m : Int,
        r = { CPULimit := fmtTenths (10 * c), CPURequest := fmtTenths (7 * c),
              MemoryLimit := toString m ++ "Gi",
              MemoryRequest := toString (ceilFrac (7 * m) 10) ++ "Gi" }) ∧
    (GetDefaultResources.CPURequest = GetDefaultResources.CPULimit ∧
     GetDefaultResources.CPURequest ≠ fmtTenths (7 * 1) ∧
     GetDefaultResources.MemoryRequest = toString (ceilFrac (7 * 2) 10) ++ "Gi") := by
  refine ⟨fun b => ⟨cpuCoresOf b, memoryGBOf b, rfl⟩, ?_, by decide⟩
  intro s r h
  unfold FallbackToPVCSize at h
  cases hp : ParseSize s with
  | error e =>
    rw [hp] at h
    cases h
  | ok n =>
    rw [hp] at h
    cases h
    exact ⟨cpuCoresOf (estimatedUsageOf n), memoryGBOf (estimatedUsageOf n), rfl⟩

/-- C6 witness: the fallback path at the concrete PVC size "10Gi". -/
theorem resources_request_seventy_percent_witness :
    ∃ c m : Int,
      CalculateResourcesFromUsage (estimatedUsageOf 10737418240) =
        { CPULimit := fmtTenths (10 * c), CPURequest := fmtTenths (7 * c),
          MemoryLimit := toString m ++ "Gi",
          MemoryRequest := toString (ceilFrac (7 * m) 10) ++ "Gi" } :=
  resources_request_seventy_percent.2.1 "10Gi"
    (CalculateResourcesFromUsage (estimatedUsageOf 10737418240)) (by rfl)

end resource

namespace replication

theorem verifySecretLoop_spec (cfg : Config) (st : RunState) :
    1 ≤ (verifySecretLoop cfg 3 5 st).2.1 ∧ (verifySecretLoop cfg 3 5 st).2.1 ≤ 3 ∧
    ((verifySecretLoop cfg 3 5 st).2.2 = [] ∨ (verifySecretLoop cfg 3 5 st).2.2 = [5] ∨
     (verifySecretLoop cfg 3 5 st).2.2 = [5, 10]) := by
  rcases st with ⟨o, t⟩
  rcases o with _ | ⟨r1, o⟩
  · -- oracle exhausted: all three attempts fail
    exact ⟨(by norm_num : (1 : ℕ) ≤ 3), (by norm_num : (3 : ℕ) ≤ 3), .inr (.inr rfl)⟩
  · rcases r1 with e1 | s1
    · rcases o with _ | ⟨r2, o⟩
      · exact ⟨(by norm_num : (1 : ℕ) ≤ 3), (by norm_num : (3 : ℕ) ≤ 3), .inr (.inr rfl)⟩
      · rcases r2 with e2 | s2
        · rcases o with _ | ⟨r3, o⟩
          · exact ⟨(by norm_num : (1 : ℕ) ≤ 3), (by norm_num : (3 : ℕ) ≤ 3), .inr (.inr rfl)⟩
          · rcases r3 with e3 | s3
            · exact ⟨(by norm_num : (1 : ℕ) ≤ 3), (by norm_num : (3 : ℕ) ≤ 3), .inr (.inr rfl)⟩
            · exact ⟨(by norm_num : (1 : ℕ) ≤ 3), (by norm_num : (3 : ℕ) ≤ 3), .inr (.inr rfl)⟩
        · exact ⟨(by norm_num : (1 : ℕ) ≤ 2), (by norm_num : (2 : ℕ) ≤ 3), .inr (.inl rfl)⟩
    · exact ⟨(by norm_num : (1 : ℕ) ≤ 1), (by norm_num : (1 : ℕ) ≤ 3), .inl rfl⟩

/-- C7: during SSH key provisioning the secret-verification loop performs at
most 3 attempts, with inter-attempt delays doubling from a 5-second base (5s
then 10s, never more); and whenever the verification loop is reached at all
(i.e. the earlier secret apply step succeeded), GenerateKeys returns success
even if every verification attempt fails. -/
theorem generateKeys_retry_semantics (cfg : Config) (st0 : RunState) :
    (GenerateKeys cfg st0).verifyAttempts ≤ 3 ∧
    ((GenerateKeys cfg st0).verifySleeps = [] ∨ (GenerateKeys cfg st0).verifySleeps = [5] ∨
     (GenerateKeys cfg st0).verifySleeps = [5, 10]) ∧
    (1 ≤ (GenerateKeys cfg st0).verifyAttempts → (GenerateKeys cfg st0).ret = .ok ()) := by
  unfold GenerateKeys
  rcases h : generateKeysPre cfg st0 with ⟨e | u, st⟩
  · exact ⟨(by norm_num : (0 : ℕ) ≤ 3), .inl rfl,
      fun hc => absurd hc (by norm_num : ¬ (1 : ℕ) ≤ 0)⟩
  · exact ⟨(verifySecretLoop_spec cfg st).2.1, (verifySecretLoop_spec cfg st).2.2,
      fun _ => rfl⟩

/-- C7 witness: a concrete run in which the apply step succeeds and all three
verification attempts fail: at most 3 attempts, and GenerateKeys still
returns success. -/
theorem generateKeys_retry_semantics_witness :
    (GenerateKeys ⟨"vm1", "default", "src.kubeconfig", "dst.kubeconfig", "oc"⟩
      ⟨[.ok "EXISTS", .ok "PRIVATEKEY", .ok "PUBLICKEY", .ok "", .ok "",
        .error "secrets \"vm1-repl-ssh-keys\" not found", .ok "yaml", .ok "", .ok "", .ok "",
        .error "secrets \"vm1-repl-ssh-keys\" not found",
        .error "secrets \"vm1-repl-ssh-keys\" not found",
        .error "secrets \"vm1-repl-ssh-keys\" not found"], []⟩).verifyAttempts ≤ 3 ∧
    (GenerateKeys ⟨"vm1", "default", "src.kubeconfig", "dst.kubeconfig", "oc"⟩
      ⟨[.ok "EXISTS", .ok "PRIVATEKEY", .ok "PUBLICKEY", .ok "", .ok "",
        .error "secrets \"vm1-repl-ssh-keys\" not found", .ok "yaml", .ok "", .ok "", .ok "",
        .error "secrets \"vm1-repl-ssh-keys\" not found",
        .error "secrets \"vm1-repl-ssh-keys\" not found",
        .error "secrets \"vm1-repl-ssh-keys\" not found"], []⟩).ret = .ok () :=
  ⟨(generateKeys_retry_semantics _ _).1,
   (generateKeys_retry_semantics _ _).2.2 (by decide)⟩

end replication

namespace migrate

/-- C2 counterexample: at a concrete configuration and a concrete oracle in
which the source VM reports "Running" 62 times before "Stopped", the run
completes successfully after 63 status polls — more than a bounded 5-minute
timeout at the fixed 5-second interval (at most 60 polls) would permit — and
the trace contains the plain `virtctl stop` command but no command that
queries the VM's runStrategy field; so the stop step performs no
runStrategy/running-field detection and the poll is not bounded by a
timeout. -/
theorem runMigrate_stop_without_detection_unbounded_poll :
    (runMigrate cfgExample migrateOracle62).1 = .ok () ∧
    stopSourceVMEvent cfgExample ∈ (runMigrate cfgExample migrateOracle62).2 ∧
    ((runMigrate cfgExample migrateOracle62).2.all fun ev => !mentionsRunStrategy ev) = true ∧
    (runMigrate cfgExample migrateOracle62).2.count
      (getVMStatusEvent cfgExample cfgExample.SrcKubeconfig) = 63 := by
  refine ⟨rfl, by decide, by decide, by decide⟩

/-- C2 (amended): in the migrate phase the cronjob suspension is always the
first issued command and the `virtctl stop` of the source VM, when issued at
all, is always the second — in particular the cronjob suspension always
precedes the source VM stop. -/
theorem runMigrate_suspend_precedes_stop (cfg : Config) (oracle : List Resp) :
    (runMigrate cfg oracle).2.head? = some (suspendCronJobEvent cfg) ∧
    ((runMigrate cfg oracle).2.get? 1 = none ∨
     (runMigrate cfg oracle).2.get? 1 = some (stopSourceVMEvent cfg)) ∧
    ∀ i, (runMigrate cfg oracle).2.get? i = some (stopSourceVMEvent cfg) → 1 ≤ i := by
  have hne : suspendCronJobEvent cfg ≠ stopSourceVMEvent cfg := by
    simp [suspendCronJobEvent, stopSourceVMEvent]
  have h1 : (runMigrate cfg oracle).2.head? = some (suspendCronJobEvent cfg) := by
    rcases oracle with _ | ⟨r1, o⟩
    · rfl
    · rcases r1 with e1 | s1
      · rfl
      · rcases o with _ | ⟨r2, o2⟩
        · rfl
        · rcases r2 with e2 | s2 <;> rfl
  have h2 : (runMigrate cfg oracle).2.get? 1 = none ∨
      (runMigrate cfg oracle).2.get? 1 = some (stopSourceVMEvent cfg) := by
    rcases oracle with _ | ⟨r1, o⟩
    · exact .inl rfl
    · rcases r1 with e1 | s1
      · exact .inl rfl
      · rcases o with _ | ⟨r2, o2⟩
        · exact .inr rfl
        · rcases r2 with e2 | s2 <;> exact .inr rfl
  refine ⟨h1, h2, ?_⟩
  intro i hi
  cases i with
  | zero =>
    rcases hT : (runMigrate cfg oracle).2 with _ | ⟨a, rest⟩
    · rw [hT] at hi
      simp at hi
    · rw [hT] at hi h1
      simp at hi h1
      exact absurd (h1.symm.trans hi) hne
  | succ n => exact Nat.succ_le_succ (Nat.zero_le n)

/-- C2 witness: at a concrete run whose stop command fails, the suspension is
the first command in the trace and the stop command's only position is
index 1. -/
theorem runMigrate_suspend_precedes_stop_witness :
    (runMigrate cfgExample [.ok "", .error "stop failed"]).2.head? =
      some (suspendCronJobEvent cfgExample) ∧ (1 : ℕ) ≤ 1 :=
  ⟨(runMigrate_suspend_precedes_stop cfgExample [.ok "", .error "stop failed"]).1,
   (runMigrate_suspend_precedes_stop cfgExample [.ok "", .error "stop failed"]).2.2 1
     (by decide)⟩

end migrate

end KubevirtMigrator
